import Mathlib

/-
Verification of the playback-orchestration layer of crunchyroll-html5
(src/app/player/crunchyroll.ts: trackProgress, PlayerController,
SpeedSliderComponent) against its natural-language specification.

The TypeScript code is shallowly embedded: the mutable fields of
PlayerController become an explicit `State` record, each handler becomes a
pure function from state (plus the inputs it reads from the player API or
the DOM event) to a new state together with a list of observable effects
(`Event`), and the `await` inside `_onNextVideo` splits that handler into a
synchronous start phase and a resolution-completion phase. JS numbers are
modelled as rationals, JS `undefined` as `Option`, and JS string truthiness
is modelled explicitly.
-/

namespace CrunchyrollHtml5

/-- JS truthiness of a possibly-undefined string: `undefined` and the empty
string are falsy, every other string is truthy. -/
def strTruthy : Option String → Bool
  | none => false
  | some s => if s = "" then false else true

/-- Math.floor on a JS number, modelled on rationals. `Rat.floor` is the
largest integer less than or equal to the argument. -/
def jsFloor (q : ℚ) : Int := Rat.floor q

/-- Assignment `obj[k] = v` on a JS object modelled as an association list:
replaces the first binding of `k`, or appends one if `k` is absent. -/
def setKey : List (String × String) → String → String → List (String × String)
  | [], k, v => [(k, v)]
  | (k1, v1) :: rest, k, v =>
    if k1 = k then (k, v) :: rest else (k1, v1) :: setKey rest k v

/-- Property read `obj[k]` on a JS object modelled as an association list. -/
def getKey : List (String × String) → String → Option String
  | [], _ => none
  | (k1, v1) :: rest, k => if k1 = k then some v1 else getKey rest k

/-- Result of the url-parse library on a page URL: the query parameters as a
key-value object (possibly absent, matching the null check in the code) and
the remaining components of the URL collapsed into `base`. -/
structure URLRec where
  base : String
  query : Option (List (String × String))
deriving DecidableEq

/-- Stream descriptor of a Media, as exposed by `media.getStream()` in the
crunchyroll-lib collaborator: file URL, duration, encode id and media type. -/
structure MediaStream where
  file : String
  duration : ℚ
  encodeId : String
  mediaType : String
deriving DecidableEq

/-- Metadata of a Media, as exposed by `media.getMetadata()`: series title,
episode number, episode title and episode image URL. -/
structure MediaMetadata where
  seriesTitle : String
  episodeNumber : String
  episodeTitle : String
  episodeImageUrl : String
deriving DecidableEq

/-- A resolved Media object (collaborator data, referenced by the
orchestrator): id, stream, metadata, subtitles, optional start time,
autoplay flag and an optional next-video URL. -/
structure Media where
  id : String
  stream : MediaStream
  metadata : MediaMetadata
  subtitles : List String
  startTime : Option ℚ
  autoPlay : Bool
  nextVideoUrl : Option String
deriving DecidableEq

/-- Next-video descriptor as produced by `NextVideo.fromUrlUsingDocument`:
episode number and title, optional duration (undefined when not a number),
source URL and thumbnail URL. -/
structure NextVideo where
  episodeNumber : String
  episodeTitle : String
  duration : Option ℚ
  url : String
  thumbnailUrl : String
deriving DecidableEq

/-- The next-video section of a player configuration. The `duration` field
keeps `Option ℚ` with `none` standing for the NaN the code produces when the
descriptor's duration is not a number. -/
structure NextVideoConfig where
  title : String
  duration : Option ℚ
  url : String
  thumbnailUrl : String
deriving DecidableEq

/-- An IPlayerConfig value handed to `loadVideoByConfig` or
`cueVideoByConfig`. Every field is optional; the placeholder configuration
built during a next-video transition sets only `thumbnailUrl`. -/
structure PlayerConfig where
  title : Option String := none
  url : Option String := none
  duration : Option ℚ := none
  subtitles : Option (List String) := none
  startTime : Option ℚ := none
  autoplay : Option Bool := none
  thumbnailUrl : Option String := none
  nextVideo : Option NextVideoConfig := none
deriving DecidableEq

/-- Detail payload of a NextVideoEvent: the next video's URL and thumbnail. -/
structure NextVideoDetail where
  url : String
  thumbnailUrl : String
deriving DecidableEq

/-- A media-resolution call issued to the crunchyroll-lib collaborator:
`byUrl` distinguishes `getMediaByUrl` (next-video transitions) from
`getMedia` (initial load); `target` is the URL or media id; the remaining
fields are the arguments the orchestrator threads through. -/
structure ResolutionRequest where
  byUrl : Bool
  target : String
  pageUrl : Option String
  mediaFormat : Option String
  mediaQuality : Option String
  quality : Option String
  affiliateId : Option String
  autoPlay : Option Bool
deriving DecidableEq

/-- Observable effects of one synchronous run of an orchestrator handler, in
program order. -/
inductive Event where
  | preventDefault
  | playerLoad (cfg : PlayerConfig)
  | playerCue (cfg : PlayerConfig)
  | disposeTracker (id : Nat)
  | createTracker (id : Nat) (mediaId : String)
  | startResolution (req : ResolutionRequest)
  | navigate (url : URLRec)
  | playVideo
deriving DecidableEq

/-- True on the effects that hand a configuration to the player
(`loadVideoByConfig` or `cueVideoByConfig`). -/
def isLoadEvent : Event → Bool
  | Event.playerLoad _ => true
  | Event.playerCue _ => true
  | _ => false

/-- Constructor options of PlayerController (IPlayerControllerOptions). -/
structure Options where
  quality : Option String := none
  mediaFormat : Option String := none
  mediaQuality : Option String := none
  startTime : Option ℚ := none
  sizeEnabled : Option Bool := none
  autoPlay : Option Bool := none
  affiliateId : Option String := none
deriving DecidableEq

/-- Mutable state of a PlayerController. `hasPlayer` stands for the
`_player` handle being set, `tracking` for the `_tracking` field holding the
id of the active VideoTracker. `liveTrackers` and `nextTrackerId` are ghost
instrumentation: the ids of VideoTracker instances constructed and not yet
disposed, and a counter supplying fresh ids. -/
structure State where
  url : String
  mediaId : String
  sizeEnabled : Bool
  startTime : Option ℚ
  autoPlay : Option Bool
  affiliateId : Option String
  quality : Option String
  mediaFormat : Option String
  mediaQuality : Option String
  hasPlayer : Bool
  changedMedia : Bool
  tracking : Option Nat
  liveTrackers : List Nat
  nextTrackerId : Nat
deriving DecidableEq

/-- External collaborators of the orchestrator.
`parse` is the url-parse library applied with `parseQuery = true`.
Modelled from the spec: `parseNextVideo` stands for
`NextVideo.fromUrlUsingDocument` (repository code not under src/), which per
the spec parses a next-video descriptor from a page fragment and yields no
descriptor on malformed or missing data. -/
structure Env where
  parse : String → URLRec
  parseNextVideo : String → Option NextVideo

/-- The PlayerController constructor: stores the configuration and performs
no I/O. Matches the TypeScript field initializers plus the `if (options)`
block: without options `_sizeEnabled` keeps its initializer `true` and
`_quality` stays undefined; with options `_sizeEnabled` is `!!options.sizeEnabled`
and `_quality` falls back to the string constant of 360p on a falsy
`options.quality`. -/
def mkController (url mediaId : String) (options : Option Options) : State :=
  { url := url
    mediaId := mediaId
    sizeEnabled := match options with | none => true | some o => o.sizeEnabled.getD false
    startTime := match options with | none => none | some o => o.startTime
    autoPlay := match options with | none => none | some o => o.autoPlay
    affiliateId := match options with | none => none | some o => o.affiliateId
    quality := match options with
      | none => none
      | some o => some (match o.quality with
          | some q => if q = "" then "360p" else q
          | none => "360p")
    mediaFormat := match options with | none => none | some o => o.mediaFormat
    mediaQuality := match options with | none => none | some o => o.mediaQuality
    hasPlayer := false
    changedMedia := false
    tracking := none
    liveTrackers := []
    nextTrackerId := 0 }

/-- Disposal of the active VideoTracker, as in the
`if (this._tracking) { this._tracking.dispose(); this._tracking = undefined; }`
blocks: synchronous, clears the field, removes the instance from the live
set, and emits the dispose effect. -/
def disposeTracking (s : State) : State × List Event :=
  match s.tracking with
  | none => (s, [])
  | some t =>
    ({ s with tracking := none, liveTrackers := s.liveTrackers.erase t },
     [Event.disposeTracker t])

/-- The IPlayerConfig built inside `_loadMedia`: title concatenated from the
metadata, stream fields, start time and autoplay resolved against the
controller options, and the next-video section attached only when the Media
carries a truthy next-video URL that parses successfully. -/
def mkVideoConfig (env : Env) (s : State) (media : Media) : PlayerConfig :=
  let base : PlayerConfig :=
    { title := some (media.metadata.seriesTitle ++ " Episode "
        ++ media.metadata.episodeNumber ++ " – " ++ media.metadata.episodeTitle)
      url := some media.stream.file
      duration := some media.stream.duration
      subtitles := some media.subtitles
      startTime := some (match s.startTime with
        | none => media.startTime.getD 0
        | some t => t)
      autoplay := some (match s.autoPlay with
        | none => media.autoPlay
        | some b => b)
      thumbnailUrl := some media.metadata.episodeImageUrl
      nextVideo := none }
  match media.nextVideoUrl with
  | none => base
  | some nvUrl =>
    if nvUrl = "" then base
    else
      match env.parseNextVideo nvUrl with
      | none => base
      | some nv =>
        let nvCfg : NextVideoConfig :=
          { title := nv.episodeNumber ++ ": " ++ nv.episodeTitle,
            duration := nv.duration,
            url := nv.url,
            thumbnailUrl := nv.thumbnailUrl }
        { base with nextVideo := some nvCfg }

/-- The `_loadMedia` step: bails out without a player; otherwise disposes
the active tracker, builds the configuration, constructs a fresh
VideoTracker bound to the media, and hands the configuration to
`loadVideoByConfig` when autoplay is requested or `cueVideoByConfig`
otherwise. -/
def loadMedia (env : Env) (s : State) (media : Media) : State × List Event :=
  if s.hasPlayer then
    let s1 := (disposeTracking s).1
    let cfg := mkVideoConfig env s1 media
    ({ s1 with tracking := some s1.nextTrackerId
               liveTrackers := s1.liveTrackers ++ [s1.nextTrackerId]
               nextTrackerId := s1.nextTrackerId + 1 },
     (disposeTracking s).2
       ++ [Event.createTracker s1.nextTrackerId media.id,
           if cfg.autoplay.getD false then Event.playerLoad cfg
           else Event.playerCue cfg])
  else (s, [])

/-- The `getMediaByUrl` call issued during a next-video transition: the
pinned (format, quality) pair when both are truthy, otherwise the single
quality preference; the affiliate id is threaded through and autoplay is
forced true in both branches. -/
def nextVideoResolutionRequest (s : State) (url : String) : ResolutionRequest :=
  if strTruthy s.mediaFormat && strTruthy s.mediaQuality then
    { byUrl := true, target := url, pageUrl := none
      mediaFormat := s.mediaFormat, mediaQuality := s.mediaQuality
      quality := none, affiliateId := s.affiliateId, autoPlay := some true }
  else
    { byUrl := true, target := url, pageUrl := none
      mediaFormat := none, mediaQuality := none
      quality := s.quality, affiliateId := s.affiliateId, autoPlay := some true }

/-- Synchronous phase of `_onNextVideo`, up to the `await` of
`getMediaByUrl`: a no-op unless a player exists and is in fullscreen; when
honored it suppresses the event's default, retargets the tracked URL, sets
the changed-media flag, disposes the active tracker, immediately loads the
thumbnail-only placeholder configuration and starts the media resolution.
The third component is the originating URL captured by the pending
resolution (`none` when no resolution was started). -/
def onNextVideoStart (s : State) (detail : NextVideoDetail) (isFullscreen : Bool) :
    State × List Event × Option String :=
  if s.hasPlayer && isFullscreen then
    let s1 := { s with url := detail.url, changedMedia := true }
    let s2 := (disposeTracking s1).1
    (s2,
     Event.preventDefault :: (disposeTracking s1).2
       ++ [Event.playerLoad { thumbnailUrl := some detail.thumbnailUrl },
           Event.startResolution (nextVideoResolutionRequest s2 detail.url)],
     some detail.url)
  else (s, [], none)

/-- Continuation of `_onNextVideo` after the awaited resolution settles: the
code passes the resolved media straight to `_loadMedia`; the originating URL
of the pending resolution is not consulted. -/
def onNextVideoComplete (env : Env) (s : State) (originUrl : String) (media : Media) :
    State × List Event :=
  let _ := originUrl
  loadMedia env s media

/-- The `getMedia` call issued for the initial load in `_onPlayerReady`:
pinned (format, quality) pair when both are truthy, else the single quality
preference, with the tracked page URL and the stored options threaded
through. -/
def initialResolutionRequest (s : State) : ResolutionRequest :=
  if strTruthy s.mediaFormat && strTruthy s.mediaQuality then
    { byUrl := false, target := s.mediaId, pageUrl := some s.url
      mediaFormat := s.mediaFormat, mediaQuality := s.mediaQuality
      quality := none, affiliateId := s.affiliateId, autoPlay := s.autoPlay }
  else
    { byUrl := false, target := s.mediaId, pageUrl := some s.url
      mediaFormat := none, mediaQuality := none
      quality := s.quality, affiliateId := s.affiliateId, autoPlay := s.autoPlay }

/-- Synchronous phase of `_onPlayerReady`: stores the player handle and
starts the initial media resolution; its completion is `loadMedia`. -/
def onPlayerReady (s : State) : State × List Event :=
  let s1 := { s with hasPlayer := true }
  (s1, [Event.startResolution (initialResolutionRequest s1)])

/-- The `_onFullscreenChange` handler: a no-op unless a player exists, it is
no longer fullscreen and the media has changed; otherwise it parses the
tracked URL, sets the `t` query parameter to the floor of the current
playback time and navigates to the resulting URL. -/
def onFullscreenChange (parse : String → URLRec) (s : State)
    (isFullscreen : Bool) (currentTime : ℚ) : State × List Event :=
  if !s.hasPlayer || isFullscreen then (s, [])
  else if !s.changedMedia then (s, [])
  else
    let u := parse s.url
    let q := u.query.getD []
    (s, [Event.navigate
      { u with query := some (setKey q "t" (toString (jsFloor currentTime))) }])

/-- The `_onSizeChange` handler, restricted to what the orchestrator state
sees: bails out without a player or when the fixed layout containers are
missing from the document, and re-issues play after the layout swap exactly
when the preferred playback state was playing. -/
def onSizeChange (s : State) (large domPresent playing : Bool) : State × List Event :=
  let _ := large
  if !s.hasPlayer then (s, [])
  else if !domPresent then (s, [])
  else (s, if playing then [Event.playVideo] else [])

/-- One schedulable unit of orchestrator work: the synchronous handler runs
and the resolution-completion continuations, with the values the player API
or DOM would supply passed in as parameters. -/
inductive Op where
  | playerReady
  | fullscreenChange (isFullscreen : Bool) (currentTime : ℚ)
  | nextVideoStart (detail : NextVideoDetail) (isFullscreen : Bool)
  | resolutionComplete (originUrl : String) (media : Media)
  | initResolutionComplete (media : Media)
  | sizeChange (large domPresent playing : Bool)

/-- Small-step interpretation of one unit of orchestrator work. -/
def step (env : Env) (s : State) (op : Op) : State × List Event :=
  match op with
  | Op.playerReady => onPlayerReady s
  | Op.fullscreenChange fs ct => onFullscreenChange env.parse s fs ct
  | Op.nextVideoStart d fs =>
    ((onNextVideoStart s d fs).1, (onNextVideoStart s d fs).2.1)
  | Op.resolutionComplete origin media => onNextVideoComplete env s origin media
  | Op.initResolutionComplete media => loadMedia env s media
  | Op.sizeChange l d p => onSizeChange s l d p

/-- Run a sequence of operations from a state, discarding effects. -/
def runOps (env : Env) (s : State) (ops : List Op) : State :=
  ops.foldl (fun s1 op => (step env s1 op).1) s

/-- True exactly when the operation is a next-video start that the
orchestrator honors: a player exists and it is in fullscreen. -/
def honorsNextVideo (s : State) (op : Op) : Bool :=
  match op with
  | Op.nextVideoStart _ fs => s.hasPlayer && fs
  | _ => false

/-- Tracker invariant: the set of live VideoTracker instances is empty when
the `_tracking` field is clear and is exactly the tracked instance
otherwise; in particular at most one tracker is ever live. -/
def TrackerInv (s : State) : Prop :=
  s.liveTrackers = s.tracking.elim [] (fun t => [t])

/-- Scan of an effect trace: true when no tracker creation occurs before the
tracker `t` has been disposed (effects after that disposal are
unconstrained). Used to state that disposal of the active tracker completes
strictly before a successor is constructed. -/
def createsPrecededByDispose (t : Nat) : List Event → Bool
  | [] => true
  | e :: rest =>
    match e with
    | Event.createTracker _ _ => false
    | Event.disposeTracker u => if u = t then true else createsPrecededByDispose t rest
    | _ => createsPrecededByDispose t rest

/-- State of the speed slider widget (SpeedSliderComponent). -/
structure SliderState where
  minValue : ℚ
  maxValue : ℚ
  value : ℚ
deriving DecidableEq

/-- Outcome of `setValue`: either the updated widget state together with the
speed value passed to `api.setSpeed` (none when the call returned without
setting), or the thrown RangeError. -/
inductive SliderResult where
  | ok (state : SliderState) (speedChange : Option ℚ)
  | rangeError
deriving DecidableEq

/-- The SpeedSliderComponent constructor: bounds 0.5 and 4, value taken from
`api.getSpeed()` (always finite in this rational model). -/
def mkSliderState (apiSpeed : ℚ) : SliderState :=
  { minValue := ⟨1, 2, by decide, by decide⟩, maxValue := 4, value := apiSpeed }

/-- The slider's `setValue`: returns unchanged when the new value equals the
current one, then throws a RangeError when the value is out of bounds, and
otherwise stores the value and forwards it to `api.setSpeed`. -/
def setValue (s : SliderState) (v : ℚ) : SliderResult :=
  if s.value = v then SliderResult.ok s none
  else if v < s.minValue ∨ v > s.maxValue then SliderResult.rangeError
  else SliderResult.ok { s with value := v } (some v)

/-- A form-encoded value in a progress report: JS strings and numbers. -/
inductive FormValue where
  | str (s : String)
  | num (q : ℚ)
  | nat (n : Nat)
deriving DecidableEq

/-- An HTTP request issued through the IHttpClient collaborator. -/
structure HttpRequest where
  method : String
  url : String
  contentType : String
  fields : List (String × FormValue)
deriving DecidableEq

/-- The `trackProgress` helper: the form-encoded POST it issues to the
progress endpoint, with the body fields in program order. -/
def trackProgress (media : Media) (currentTime elapsedTime : ℚ) (callCount : Nat) :
    HttpRequest :=
  { method := "POST"
    url := "http://www.crunchyroll.com/ajax/"
    contentType := "application/x-www-form-urlencoded"
    fields :=
      [("cbcallcount", FormValue.nat callCount),
       ("h", FormValue.str ""),
       ("cbelapsed", FormValue.num elapsedTime),
       ("video_encode_id", FormValue.str media.stream.encodeId),
       ("req", FormValue.str "RpcApiVideo_VideoView"),
       ("media_type", FormValue.str media.stream.mediaType),
       ("ht", FormValue.str "0"),
       ("playhead", FormValue.num currentTime),
       ("media_id", FormValue.str media.id)] }

/-- Concrete environment for witnesses: every URL parses to itself with an
empty query, and no next-video descriptor ever parses. -/
def envC : Env :=
  { parse := fun u => { base := u, query := some [] }
    parseNextVideo := fun _ => none }

/-- Concrete environment for witnesses whose tracked URL carries existing
query parameters, including an existing `t`. -/
def envW : Env :=
  { parse := fun u => { base := u, query := some [("a", "1"), ("t", "0")] }
    parseNextVideo := fun _ => none }

/-- A concrete orchestrator state with a live player and no transition yet. -/
def s0 : State :=
  { url := "u0", mediaId := "m0", sizeEnabled := true, startTime := none
    autoPlay := none, affiliateId := none, quality := some "360p"
    mediaFormat := none, mediaQuality := none, hasPlayer := true
    changedMedia := false, tracking := none, liveTrackers := []
    nextTrackerId := 0 }

/-- A concrete state after a media change (changedMedia already true). -/
def sW : State := { s0 with changedMedia := true }

/-- A concrete state with an active tracker of id 0. -/
def sT : State := { s0 with tracking := some 0, liveTrackers := [0] }

/-- Concrete next-video event details for witnesses. -/
def d1 : NextVideoDetail := { url := "u1", thumbnailUrl := "t1" }

/-- A second concrete next-video event detail with a different URL. -/
def d2 : NextVideoDetail := { url := "u2", thumbnailUrl := "t2" }

/-- A concrete resolved Media without a next-video URL. -/
def media1 : Media :=
  { id := "m1"
    stream := { file := "f1", duration := 10, encodeId := "e1", mediaType := "mt" }
    metadata := { seriesTitle := "S", episodeNumber := "1", episodeTitle := "E"
                  episodeImageUrl := "img" }
    subtitles := []
    startTime := none
    autoPlay := true
    nextVideoUrl := none }

/-- A concrete resolved Media carrying a next-video URL. -/
def media2 : Media := { media1 with nextVideoUrl := some "nv" }

/-- A concrete rational 7/2, built by constructor so that it reduces in the
kernel. -/
def q72 : ℚ := ⟨7, 2, by decide, by decide⟩

/-- A concrete slider state at speed 1 within bounds. -/
def slider1 : SliderState := mkSliderState 1

/-- Looking up the key just assigned yields the assigned value. -/
theorem getKey_setKey_self (q : List (String × String)) (k v : String) :
    getKey (setKey q k v) k = some v := by
  induction q with
  | nil => simp [setKey, getKey]
  | cons p rest ih =>
    obtain ⟨k1, v1⟩ := p
    by_cases h : k1 = k
    · simp [setKey, getKey, h]
    · simp [setKey, getKey, h, ih]

/-- Assigning one key leaves every other key's binding unchanged. -/
theorem getKey_setKey_ne (q : List (String × String)) (k v k2 : String)
    (h : ¬(k2 = k)) : getKey (setKey q k v) k2 = getKey q k2 := by
  have h2 : ¬(k = k2) := fun hh => h hh.symm
  induction q with
  | nil => simp [setKey, getKey, h2]
  | cons p rest ih =>
    obtain ⟨k1, v1⟩ := p
    by_cases h1 : k1 = k
    · subst h1
      simp [setKey, getKey, h2]
    · by_cases h3 : k1 = k2 <;> simp [setKey, getKey, h, h1, h3, ih]

/-- Disposing the tracker leaves the tracked URL unchanged. -/
theorem disposeTracking_url (s : State) : (disposeTracking s).1.url = s.url := by
  cases h : s.tracking <;> simp [disposeTracking, h]

/-- Disposing the tracker leaves the changed-media flag unchanged. -/
theorem disposeTracking_changedMedia (s : State) :
    (disposeTracking s).1.changedMedia = s.changedMedia := by
  cases h : s.tracking <;> simp [disposeTracking, h]

/-- Disposing the tracker leaves the player handle unchanged. -/
theorem disposeTracking_hasPlayer (s : State) :
    (disposeTracking s).1.hasPlayer = s.hasPlayer := by
  cases h : s.tracking <;> simp [disposeTracking, h]

/-- Disposing the tracker leaves the fresh-id counter unchanged. -/
theorem disposeTracking_nextTrackerId (s : State) :
    (disposeTracking s).1.nextTrackerId = s.nextTrackerId := by
  cases h : s.tracking <;> simp [disposeTracking, h]

/-- After disposal the tracking field is always clear. -/
theorem disposeTracking_tracking (s : State) :
    (disposeTracking s).1.tracking = none := by
  cases h : s.tracking <;> simp [disposeTracking, h]

/-- The configuration built by the load step always carries the title
concatenated from series title, episode number and episode title. -/
theorem mkVideoConfig_title (env : Env) (s : State) (m : Media) :
    (mkVideoConfig env s m).title =
      some (m.metadata.seriesTitle ++ " Episode " ++ m.metadata.episodeNumber
        ++ " – " ++ m.metadata.episodeTitle) := by
  cases h : m.nextVideoUrl with
  | none => simp [mkVideoConfig, h]
  | some u =>
    by_cases hu : u = ""
    · simp [mkVideoConfig, h, hu]
    · cases hp : env.parseNextVideo u <;> simp [mkVideoConfig, h, hu, hp]

/-- When the next-video URL is truthy but fails to parse, the built
configuration has no next-video section. -/
theorem mkVideoConfig_nextVideo_none (env : Env) (s : State) (m : Media) (u : String)
    (hu : m.nextVideoUrl = some u) (hne : ¬(u = ""))
    (hp : env.parseNextVideo u = none) :
    (mkVideoConfig env s m).nextVideo = none := by
  simp [mkVideoConfig, hu, hne, hp]

/-- The load step never changes the changed-media flag. -/
theorem loadMedia_changedMedia (env : Env) (s : State) (m : Media) :
    (loadMedia env s m).1.changedMedia = s.changedMedia := by
  cases h : s.hasPlayer <;>
    simp [loadMedia, h, disposeTracking_changedMedia]

/-- A fullscreen change never mutates the orchestrator state. -/
theorem onFullscreenChange_state (p : String → URLRec) (s : State) (fs : Bool)
    (ct : ℚ) : (onFullscreenChange p s fs ct).1 = s := by
  cases hp : s.hasPlayer <;> cases fs <;> cases hc : s.changedMedia <;>
    simp [onFullscreenChange, hp, hc]

/-- The resolution request of a next-video transition always resolves by
URL, targets the transition URL, and forces autoplay. -/
theorem nextVideoResolutionRequest_spec (s : State) (u : String) :
    (nextVideoResolutionRequest s u).byUrl = true
    ∧ (nextVideoResolutionRequest s u).target = u
    ∧ (nextVideoResolutionRequest s u).autoPlay = some true := by
  by_cases h : (strTruthy s.mediaFormat && strTruthy s.mediaQuality) = true <;>
    simp [nextVideoResolutionRequest, h]

/-- The tracker invariant bounds the live set by one element. -/
theorem trackerInv_length (s : State) (h : TrackerInv s) :
    s.liveTrackers.length ≤ 1 := by
  rw [TrackerInv] at h
  cases ht : s.tracking <;> rw [ht] at h <;> simp [h]

/-- Claim C2: onFullscreenChange mutates the page location exactly when the
player exists, is no longer fullscreen, and changedMedia is true; the
navigation target is the tracked URL with its t query parameter set to the
floor of the current time and every other query parameter unchanged, and
the orchestrator state itself is never mutated. -/
theorem c2_fullscreen_exit_navigation (env : Env) (s : State) (fs : Bool) (ct : ℚ) :
    (¬((onFullscreenChange env.parse s fs ct).2 = []) ↔
      (s.hasPlayer = true ∧ fs = false ∧ s.changedMedia = true))
    ∧ (onFullscreenChange env.parse s fs ct).1 = s
    ∧ (s.hasPlayer = true → fs = false → s.changedMedia = true →
        ∃ u, (onFullscreenChange env.parse s fs ct).2 = [Event.navigate u]
          ∧ u.base = (env.parse s.url).base
          ∧ getKey (u.query.getD []) "t" = some (toString (jsFloor ct))
          ∧ ∀ k, ¬(k = "t") →
              getKey (u.query.getD []) k
                = getKey ((env.parse s.url).query.getD []) k) := by
  refine ⟨?_, onFullscreenChange_state env.parse s fs ct, ?_⟩
  · cases hp : s.hasPlayer <;> cases fs <;> cases hc : s.changedMedia <;>
      simp [onFullscreenChange, hp, hc]
  · intro hp hfs hc
    subst hfs
    refine ⟨{ env.parse s.url with
        query := some (setKey ((env.parse s.url).query.getD []) "t"
          (toString (jsFloor ct))) }, ?_, rfl, ?_, ?_⟩
    · simp [onFullscreenChange, hp, hc]
    · simp [getKey_setKey_self]
    · intro k hk
      simp [getKey_setKey_ne _ _ _ _ hk]

/-- Witness for C2 at a concrete tracked URL carrying query parameters and
current time 7/2. -/
theorem c2_witness :
    ¬((onFullscreenChange envW.parse sW false q72).2 = [])
    ∧ ∃ u, (onFullscreenChange envW.parse sW false q72).2 = [Event.navigate u]
      ∧ u.base = (envW.parse sW.url).base
      ∧ getKey (u.query.getD []) "t" = some (toString (jsFloor q72))
      ∧ ∀ k, ¬(k = "t") →
          getKey (u.query.getD []) k = getKey ((envW.parse sW.url).query.getD []) k :=
  ⟨(c2_fullscreen_exit_navigation envW sW false q72).1.mpr ⟨rfl, rfl, rfl⟩,
   (c2_fullscreen_exit_navigation envW sW false q72).2.2 rfl rfl rfl⟩

/-- Counterexample to claim C6 as stated: when the requested value equals
the current value but lies outside the bounds (reachable, since the
constructor and componentDidMount copy api.getSpeed into the value without
a bounds check), setValue returns without throwing the range violation the
claim demands for every out-of-bounds value. -/
theorem c6_counterexample :
    ((10 : ℚ) < (mkSliderState 10).minValue ∨ (10 : ℚ) > (mkSliderState 10).maxValue)
    ∧ ¬(setValue (mkSliderState 10) 10 = SliderResult.rangeError) := by
  decide

/-- Claim C6 amended: setValue throws the range violation exactly when the
value differs from the current one and lies outside the bounds; when the
value equals the current one it is a no-op with no speed change issued,
even if out of bounds; otherwise the value is stored and forwarded. -/
theorem c6_set_value_range (s : SliderState) (v : ℚ) :
    (setValue s v = SliderResult.rangeError ↔
      (¬(s.value = v) ∧ (v < s.minValue ∨ v > s.maxValue)))
    ∧ (s.value = v → setValue s v = SliderResult.ok s none)
    ∧ (¬(s.value = v) → ¬(v < s.minValue ∨ v > s.maxValue) →
        setValue s v = SliderResult.ok { s with value := v } (some v)) := by
  by_cases h1 : s.value = v
  · simp [setValue, h1]
  · by_cases h2 : v < s.minValue ∨ v > s.maxValue <;> simp [setValue, h1, h2]

/-- Witness for the amended C6: an out-of-bounds different value throws,
and setting the current value is a no-op. -/
theorem c6_witness :
    setValue slider1 5 = SliderResult.rangeError
    ∧ setValue slider1 1 = SliderResult.ok slider1 none :=
  ⟨(c6_set_value_range slider1 5).1.mpr (by decide),
   (c6_set_value_range slider1 1).2.1 (by decide)⟩

/-- Claim C7: whenever the load step runs with a live player, the
configuration handed to the player carries the title built as
series title, " Episode ", episode number, " – ", episode title. -/
theorem c7_title_format (env : Env) (s : State) (media : Media)
    (hp : s.hasPlayer = true) :
    ∃ cfg, (Event.playerLoad cfg ∈ (loadMedia env s media).2
        ∨ Event.playerCue cfg ∈ (loadMedia env s media).2)
      ∧ cfg.title = some (media.metadata.seriesTitle ++ " Episode "
          ++ media.metadata.episodeNumber ++ " – " ++ media.metadata.episodeTitle) := by
  refine ⟨mkVideoConfig env (disposeTracking s).1 media, ?_,
    mkVideoConfig_title _ _ _⟩
  cases hb : (mkVideoConfig env (disposeTracking s).1 media).autoplay.getD false
  · right
    simp [loadMedia, hp, hb]
  · left
    simp [loadMedia, hp, hb]

/-- Witness for C7 at a concrete media. -/
theorem c7_witness :
    ∃ cfg, (Event.playerLoad cfg ∈ (loadMedia envC s0 media1).2
        ∨ Event.playerCue cfg ∈ (loadMedia envC s0 media1).2)
      ∧ cfg.title = some (media1.metadata.seriesTitle ++ " Episode "
          ++ media1.metadata.episodeNumber ++ " – " ++ media1.metadata.episodeTitle) :=
  c7_title_format envC s0 media1 rfl

/-- Claim C8: when the Media carries a truthy next-video URL whose
descriptor fails to parse, the load step still succeeds (a configuration is
handed to the player and a tracker is created) and the configuration simply
has no next-video section. -/
theorem c8_parse_failure_swallowed (env : Env) (s : State) (media : Media)
    (u : String) (hp : s.hasPlayer = true) (hu : media.nextVideoUrl = some u)
    (hne : ¬(u = "")) (hparse : env.parseNextVideo u = none) :
    (∃ cfg, (Event.playerLoad cfg ∈ (loadMedia env s media).2
        ∨ Event.playerCue cfg ∈ (loadMedia env s media).2)
      ∧ cfg.nextVideo = none)
    ∧ Event.createTracker (disposeTracking s).1.nextTrackerId media.id
        ∈ (loadMedia env s media).2 := by
  constructor
  · refine ⟨mkVideoConfig env (disposeTracking s).1 media, ?_,
      mkVideoConfig_nextVideo_none env _ media u hu hne hparse⟩
    cases hb : (mkVideoConfig env (disposeTracking s).1 media).autoplay.getD false
    · right
      simp [loadMedia, hp, hb]
    · left
      simp [loadMedia, hp, hb]
  · simp [loadMedia, hp]

/-- Witness for C8 at a concrete media with an unparseable next-video URL. -/
theorem c8_witness :
    (∃ cfg, (Event.playerLoad cfg ∈ (loadMedia envC s0 media2).2
        ∨ Event.playerCue cfg ∈ (loadMedia envC s0 media2).2)
      ∧ cfg.nextVideo = none)
    ∧ Event.createTracker (disposeTracking s0).1.nextTrackerId media2.id
        ∈ (loadMedia envC s0 media2).2 :=
  c8_parse_failure_swallowed envC s0 media2 "nv" rfl rfl (by decide) rfl

/-- Counterexample to claim C9 as stated: the request body carries a field
h whose value, the empty string, is none of the seven data items the claim
says the fields consist of exactly (here instantiated at a concrete media,
playhead 1, elapsed 2, call count 3), and the body has nine fields, not
seven. -/
theorem c9_extra_fields_counterexample :
    ("h", FormValue.str "") ∈ (trackProgress media1 1 2 3).fields
    ∧ ¬(FormValue.str "" ∈ [FormValue.nat 3, FormValue.num 2, FormValue.str "e1",
        FormValue.str "RpcApiVideo_VideoView", FormValue.str "mt", FormValue.num 1,
        FormValue.str "m1"])
    ∧ ¬((trackProgress media1 1 2 3).fields.length = 7) := by
  decide

/-- Claim C9 amended: every progress report is a form-encoded POST to the
ajax endpoint whose fields carry exactly the call count, elapsed time,
encode id, the request tag, the media type, the playhead and the media id,
together with the two constant fields h (empty) and ht ("0"). -/
theorem c9_track_progress_request (media : Media) (ct et : ℚ) (cc : Nat) :
    (trackProgress media ct et cc).method = "POST"
    ∧ (trackProgress media ct et cc).url = "http://www.crunchyroll.com/ajax/"
    ∧ (trackProgress media ct et cc).contentType
        = "application/x-www-form-urlencoded"
    ∧ (trackProgress media ct et cc).fields =
        [("cbcallcount", FormValue.nat cc),
         ("h", FormValue.str ""),
         ("cbelapsed", FormValue.num et),
         ("video_encode_id", FormValue.str media.stream.encodeId),
         ("req", FormValue.str "RpcApiVideo_VideoView"),
         ("media_type", FormValue.str media.stream.mediaType),
         ("ht", FormValue.str "0"),
         ("playhead", FormValue.num ct),
         ("media_id", FormValue.str media.id)] :=
  ⟨rfl, rfl, rfl, rfl⟩

/-- Claim C10: constructed without options the stored quality stays
undefined, the initial resolution request of onPlayerReady passes that
undefined quality, and the 360p default is applied only when an options
object is provided. -/
theorem c10_default_quality (url mid : String) :
    (mkController url mid none).quality = none
    ∧ (∃ req, (onPlayerReady (mkController url mid none)).2
          = [Event.startResolution req]
        ∧ req.quality = none ∧ req.byUrl = false ∧ req.target = mid)
    ∧ (∀ o : Options, o.quality = none →
        (mkController url mid (some o)).quality = some "360p") := by
  refine ⟨rfl, ⟨initialResolutionRequest
    ((onPlayerReady (mkController url mid none)).1), rfl, ?_, ?_, ?_⟩, ?_⟩
  · rfl
  · rfl
  · rfl
  · intro o ho
    simp [mkController, ho]

/-- Witness for C10: an options object with no quality pins 360p. -/
theorem c10_witness :
    (mkController "u0" "m0" (some { })).quality = some "360p" :=
  (c10_default_quality "u0" "m0").2.2 { } rfl

/-- Counterexample to claim C1 as stated: after two next-video starts in
quick succession (to u1 then u2), the first resolution settles while the
tracked URL is u2; its originating URL u1 no longer matches, yet the
completion still hands the stale media to the load step, emitting a load
onto the player and constructing a tracker for that media. -/
theorem c1_staleness_counterexample :
    ¬("u1" = ((onNextVideoStart (onNextVideoStart s0 d1 true).1 d2 true).1).url)
    ∧ ((onNextVideoComplete envC
          ((onNextVideoStart (onNextVideoStart s0 d1 true).1 d2 true).1)
          "u1" media1).2).any isLoadEvent = true
    ∧ Event.createTracker 0 "m1"
        ∈ (onNextVideoComplete envC
            ((onNextVideoStart (onNextVideoStart s0 d1 true).1 d2 true).1)
            "u1" media1).2 := by
  decide

/-- Claim C1 amended: the resolution completion of a next-video transition
performs no staleness comparison at all — whenever a player exists, the
resolved Media is handed to the load step and a configuration reaches the
player even when the resolution's originating URL no longer matches the
tracked URL; hence with two quick next-video calls both resolved Medias are
loaded, in settlement order, not only the one matching the second URL. -/
theorem c1_no_staleness_discard (env : Env) (s : State) (origin : String)
    (media : Media) (hp : s.hasPlayer = true) (_hne : ¬(origin = s.url)) :
    ((onNextVideoComplete env s origin media).2).any isLoadEvent = true
    ∧ Event.createTracker s.nextTrackerId media.id
        ∈ (onNextVideoComplete env s origin media).2 := by
  constructor
  · cases hb : (mkVideoConfig env (disposeTracking s).1 media).autoplay.getD false <;>
      simp [onNextVideoComplete, loadMedia, hp, hb, isLoadEvent]
  · simp [onNextVideoComplete, loadMedia, hp, disposeTracking_nextTrackerId]

/-- Witness for the amended C1 at a concrete mismatching originating URL. -/
theorem c1_witness :
    ((onNextVideoComplete envC s0 "zzz" media1).2).any isLoadEvent = true :=
  (c1_no_staleness_discard envC s0 "zzz" media1 rfl (by decide)).1

/-- Claim C3: a next-video event is honored only with a live fullscreen
player — otherwise state, effects and pending resolution are untouched (no
default suppression, no resolution). When honored, the default is
suppressed, the tracked URL becomes the next video's URL, changedMedia is
set, any active tracker is disposed, and the thumbnail-only placeholder is
loaded immediately before a by-URL resolution with autoplay forced true is
started. -/
theorem c3_next_video_fullscreen_gating (s : State) (d : NextVideoDetail)
    (fs : Bool) :
    (¬(s.hasPlayer = true ∧ fs = true) → onNextVideoStart s d fs = (s, [], none))
    ∧ (s.hasPlayer = true → fs = true →
        (onNextVideoStart s d fs).1.url = d.url
        ∧ (onNextVideoStart s d fs).1.changedMedia = true
        ∧ (onNextVideoStart s d fs).1.tracking = none
        ∧ (onNextVideoStart s d fs).2.2 = some d.url
        ∧ ∃ pre req,
            (onNextVideoStart s d fs).2.1
              = Event.preventDefault :: (pre
                  ++ [Event.playerLoad { thumbnailUrl := some d.thumbnailUrl },
                      Event.startResolution req])
            ∧ req.byUrl = true ∧ req.target = d.url ∧ req.autoPlay = some true
            ∧ (∀ t, s.tracking = some t → pre = [Event.disposeTracker t])
            ∧ (s.tracking = none → pre = [])) := by
  constructor
  · intro h
    have hg : (s.hasPlayer && fs) = false := by
      cases hp : s.hasPlayer <;> cases fs <;> simp_all
    simp [onNextVideoStart, hg]
  · intro hp hfs
    subst hfs
    cases ht : s.tracking with
    | none =>
      refine ⟨?_, ?_, ?_, ?_,
        [], nextVideoResolutionRequest { s with url := d.url, changedMedia := true } d.url,
        ?_, (nextVideoResolutionRequest_spec _ _).1,
        (nextVideoResolutionRequest_spec _ _).2.1,
        (nextVideoResolutionRequest_spec _ _).2.2, ?_, ?_⟩
      · simp [onNextVideoStart, hp, disposeTracking, ht]
      · simp [onNextVideoStart, hp, disposeTracking, ht]
      · simp [onNextVideoStart, hp, disposeTracking, ht]
      · simp [onNextVideoStart, hp, disposeTracking, ht]
      · simp [onNextVideoStart, hp, disposeTracking, ht]
      · intro t hts
        exact Option.noConfusion hts
      · intro _
        rfl
    | some t0 =>
      refine ⟨?_, ?_, ?_, ?_,
        [Event.disposeTracker t0],
        nextVideoResolutionRequest
          { s with url := d.url, changedMedia := true, tracking := none,
                   liveTrackers := s.liveTrackers.erase t0 } d.url,
        ?_, (nextVideoResolutionRequest_spec _ _).1,
        (nextVideoResolutionRequest_spec _ _).2.1,
        (nextVideoResolutionRequest_spec _ _).2.2, ?_, ?_⟩
      · simp [onNextVideoStart, hp, disposeTracking, ht]
      · simp [onNextVideoStart, hp, disposeTracking, ht]
      · simp [onNextVideoStart, hp, disposeTracking, ht]
      · simp [onNextVideoStart, hp, disposeTracking, ht]
      · simp [onNextVideoStart, hp, disposeTracking, ht]
      · intro t hts
        cases hts
        rfl
      · intro hn
        exact Option.noConfusion hn

/-- Witness for C3 at a concrete honored transition. -/
theorem c3_witness :
    (onNextVideoStart s0 d1 true).1.url = d1.url
    ∧ (onNextVideoStart s0 d1 true).1.changedMedia = true :=
  ⟨((c3_next_video_fullscreen_gating s0 d1 true).2 rfl rfl).1,
   ((c3_next_video_fullscreen_gating s0 d1 true).2 rfl rfl).2.1⟩

/-- Claim C4: the changed-media flag starts false, each step leaves it
exactly at its old value or-ed with whether the step is an honored
next-video transition (so only such a transition can set it, and nothing
resets it), and once true it stays true across any operation sequence. -/
theorem c4_changed_media_monotone :
    (∀ url mid opts, (mkController url mid opts).changedMedia = false)
    ∧ (∀ env s op, ((step env s op).1).changedMedia
        = (s.changedMedia || honorsNextVideo s op))
    ∧ (∀ env s ops, s.changedMedia = true →
        (runOps env s ops).changedMedia = true) := by
  have hstep : ∀ env s op, ((step env s op).1).changedMedia
      = (s.changedMedia || honorsNextVideo s op) := by
    intro env s op
    cases op with
    | playerReady => simp [step, onPlayerReady, honorsNextVideo]
    | fullscreenChange fs ct =>
      simp [step, onFullscreenChange_state, honorsNextVideo]
    | nextVideoStart d fs =>
      by_cases h : (s.hasPlayer && fs) = true
      · simp [step, onNextVideoStart, h, honorsNextVideo,
          disposeTracking_changedMedia]
      · simp [step, onNextVideoStart, h, honorsNextVideo]
    | resolutionComplete o m =>
      simp [step, onNextVideoComplete, loadMedia_changedMedia, honorsNextVideo]
    | initResolutionComplete m =>
      simp [step, loadMedia_changedMedia, honorsNextVideo]
    | sizeChange l dd p =>
      cases hp : s.hasPlayer <;> cases dd <;>
        simp [step, onSizeChange, hp, honorsNextVideo]
  refine ⟨?_, hstep, ?_⟩
  · intro url mid opts
    rfl
  · intro env s ops h
    induction ops generalizing s with
    | nil => simpa [runOps] using h
    | cons op rest ih =>
      have h1 : ((step env s op).1).changedMedia = true := by
        rw [hstep]
        simp [h]
      have h2 : runOps env s (op :: rest) = runOps env (step env s op).1 rest := rfl
      rw [h2]
      exact ih _ h1

/-- Witness for C4: a state with the flag already set keeps it set. -/
theorem c4_witness : (runOps envC sW [Op.playerReady]).changedMedia = true :=
  c4_changed_media_monotone.2.2 envC sW [Op.playerReady] rfl

/-- Claim C5: the tracker invariant (the live-tracker set is empty or the
single tracked instance, hence at most one tracker is ever active) holds
initially and is preserved by every step, and in every step's effect trace
no tracker is constructed before the previously active tracker has been
disposed. -/
theorem c5_single_tracker :
    (∀ url mid opts, TrackerInv (mkController url mid opts))
    ∧ (∀ env s op, TrackerInv s →
        TrackerInv ((step env s op).1)
          ∧ ((step env s op).1).liveTrackers.length ≤ 1)
    ∧ (∀ env s op t, s.tracking = some t →
        createsPrecededByDispose t ((step env s op).2) = true) := by
  refine ⟨?_, ?_, ?_⟩
  · intro url mid opts
    rfl
  · intro env s op h
    have hinv : TrackerInv ((step env s op).1) := by
      cases op with
      | playerReady =>
        rw [TrackerInv] at h ⊢
        simpa [step, onPlayerReady] using h
      | fullscreenChange fs ct =>
        rw [TrackerInv] at h ⊢
        simp [step, onFullscreenChange_state]
        exact h
      | nextVideoStart d fs =>
        by_cases hg : (s.hasPlayer && fs) = true
        · rw [TrackerInv] at h ⊢
          cases ht : s.tracking <;> rw [ht] at h <;>
            simp [step, onNextVideoStart, hg, disposeTracking, ht, h]
        · rw [TrackerInv] at h ⊢
          simpa [step, onNextVideoStart, hg] using h
      | resolutionComplete o m =>
        cases hp : s.hasPlayer
        · rw [TrackerInv] at h ⊢
          simpa [step, onNextVideoComplete, loadMedia, hp] using h
        · rw [TrackerInv] at h ⊢
          cases ht : s.tracking <;> rw [ht] at h <;>
            simp [step, onNextVideoComplete, loadMedia, hp, disposeTracking, ht, h]
      | initResolutionComplete m =>
        cases hp : s.hasPlayer
        · rw [TrackerInv] at h ⊢
          simpa [step, loadMedia, hp] using h
        · rw [TrackerInv] at h ⊢
          cases ht : s.tracking <;> rw [ht] at h <;>
            simp [step, loadMedia, hp, disposeTracking, ht, h]
      | sizeChange l dd p =>
        rw [TrackerInv] at h ⊢
        cases hp : s.hasPlayer <;> cases dd <;>
          simpa [step, onSizeChange, hp] using h
    exact ⟨hinv, trackerInv_length _ hinv⟩
  · intro env s op t ht
    cases op with
    | playerReady => simp [step, onPlayerReady, createsPrecededByDispose]
    | fullscreenChange fs ct =>
      cases hp : s.hasPlayer <;> cases fs <;> cases hc : s.changedMedia <;>
        simp [step, onFullscreenChange, hp, hc, createsPrecededByDispose]
    | nextVideoStart d fs =>
      by_cases hg : (s.hasPlayer && fs) = true <;>
        simp [step, onNextVideoStart, hg, disposeTracking, ht,
          createsPrecededByDispose]
    | resolutionComplete o m =>
      cases hp : s.hasPlayer <;>
        simp [step, onNextVideoComplete, loadMedia, hp, disposeTracking, ht,
          createsPrecededByDispose]
    | initResolutionComplete m =>
      cases hp : s.hasPlayer <;>
        simp [step, loadMedia, hp, disposeTracking, ht, createsPrecededByDispose]
    | sizeChange l dd p =>
      cases hp : s.hasPlayer <;> cases dd <;> cases p <;>
        simp [step, onSizeChange, hp, createsPrecededByDispose]

/-- Witness for C5: from a state with an active tracker, a resolution
completion preserves the invariant and disposes before creating. -/
theorem c5_witness :
    TrackerInv ((step envC sT (Op.initResolutionComplete media1)).1)
    ∧ createsPrecededByDispose 0
        ((step envC sT (Op.initResolutionComplete media1)).2) = true :=
  ⟨(c5_single_tracker.2.1 envC sT (Op.initResolutionComplete media1) rfl).1,
   c5_single_tracker.2.2 envC sT (Op.initResolutionComplete media1) 0 rfl⟩

end CrunchyrollHtml5
